import Mathlib

/-!
Verification of the question-relay bridge of a Slack bot (`src/app.py`).
The bridge is `call_cortex_agent` together with the response-normalization
logic of `handle_modal_submission`.  We embed the Python functions shallowly:
JSON values become an inductive type, Python dictionaries become ordered
association lists, Python truthiness is modelled explicitly, and the single
outbound HTTP call is abstracted as a transport function passed in, so that
the number of issued requests can be observed.
-/

/-- Json values, as a Python program manipulates them: null, strings,
integers, booleans, arrays, and objects with insertion-ordered fields. -/
inductive Json where
  | null : Json
  | str : String → Json
  | num : Int → Json
  | bool : Bool → Json
  | arr : List Json → Json
  | obj : List (String × Json) → Json

/-- Python truthiness of a JSON value (`bool(x)`): None, "", 0, False,
empty list and empty dict are falsy, everything else truthy. -/
def Json.truthy : Json → Bool
  | .null => false
  | .str s => !s.isEmpty
  | .num n => n != 0
  | .bool b => b
  | .arr xs => !xs.isEmpty
  | .obj fs => !fs.isEmpty

/-- Python `isinstance(x, list)` on a JSON value. -/
def Json.isList : Json → Bool
  | .arr _ => true
  | _ => false

/-- Python `d.get(k)` on a JSON object: the value stored at the first
occurrence of the key, or null (None) when the key is absent or the value
is not an object. -/
def Json.get (j : Json) (k : String) : Json :=
  match j with
  | .obj fs =>
    match fs.find? (fun p => p.1 == k) with
    | some p => p.2
    | none => .null
  | _ => .null

/-- Python `k in d` on a JSON object. -/
def Json.hasKey (j : Json) (k : String) : Bool :=
  match j with
  | .obj fs => fs.any (fun p => p.1 == k)
  | _ => false

/-- Python `d[k] = v` on an ordered dict: replace the value when the key is
present, otherwise append the new key at the end. -/
def Json.set (j : Json) (k : String) (v : Json) : Json :=
  match j with
  | .obj fs =>
    if fs.any (fun p => p.1 == k) then
      .obj (fs.map (fun p => if p.1 == k then (k, v) else p))
    else
      .obj (fs ++ [(k, v)])
  | other => other

/-- Python `a or b` on JSON values: `a` when truthy, else `b`. -/
def pyOr (a b : Json) : Json := if a.truthy then a else b

/-- Truthiness of a Python `Optional[str]`: None and "" are falsy. -/
def pyTruthyOptStr : Option String → Bool
  | none => false
  | some s => !s.isEmpty

/-- Embedding of a Python `Optional[str]` value into JSON: None becomes
null. -/
def jsonOfOptStr : Option String → Json
  | none => .null
  | some s => .str s

/-- Relay configuration read from the environment at startup
(`CORTEX_AGENT_URL`, `CORTEX_API_KEY`, `CORTEX_TIMEOUT_SECONDS`); an unset
variable is `none` (`os.environ.get` returns None). -/
structure Config where
  cortexAgentUrl : Option String
  cortexApiKey : Option String
  timeoutSeconds : Int

/-- Outbound payload of `call_cortex_agent` (src/app.py lines 124-133):
question, source "slack", metadata with `slack_user_id` and
`slack_channel_id`, and a `context` key added only when `context` is
truthy. -/
def call_cortex_payload (question : String) (context user_id channel_id : Option String) : Json :=
  let payload : Json := .obj
    [("question", .str question),
     ("source", .str "slack"),
     ("metadata", .obj
       [("slack_user_id", jsonOfOptStr user_id),
        ("slack_channel_id", jsonOfOptStr channel_id)])]
  if pyTruthyOptStr context then
    payload.set "context" (.str (context.getD ""))
  else
    payload

/-- Typed failures of the relay, the spec's error taxonomy: the ValueError
raised on missing configuration, the HTTPError raised by
`raise_for_status`, a connection failure or timeout, and a JSON decode
failure from `resp.json()`. -/
inductive RelayError where
  | configurationError : String → RelayError
  | transportError : RelayError
  | upstreamError : Nat → RelayError
  | malformedResponseError : RelayError

/-- One outbound HTTP POST as `requests.post` receives it: url, headers,
JSON payload and timeout. -/
structure HttpRequest where
  url : String
  headers : List (String × String)
  payload : Json
  timeout : Int

/-- An upstream HTTP response: the status code, and the JSON value the body
parses to — `none` when the body is not valid JSON, in which case
`resp.json()` raises. -/
structure HttpResponse where
  status : Nat
  jsonBody : Option Json

/-- Outcome of attempting the POST: either a response arrived, or the
connection failed / timed out (a `requests` transport exception). -/
inductive HttpOutcome where
  | response : HttpResponse → HttpOutcome
  | failure : HttpOutcome

/-- Behaviour of `requests.Response.raise_for_status`: it raises an
HTTPError exactly for 4xx and 5xx status codes (3xx does not raise). -/
def raise_for_status (status : Nat) : Bool :=
  400 ≤ status && status < 600

/-- Shallow embedding of `call_cortex_agent` (src/app.py lines 115-138).
The network is abstracted as a `transport` function; the result pairs the
returned value or raised error with the list of HTTP requests actually
issued, so that claims about the number of network calls can be stated. -/
def call_cortex_agent (cfg : Config) (transport : HttpRequest → HttpOutcome)
    (question : String) (context user_id channel_id : Option String) :
    Except RelayError Json × List HttpRequest :=
  if !pyTruthyOptStr cfg.cortexAgentUrl || !pyTruthyOptStr cfg.cortexApiKey then
    (.error (.configurationError
      "CORTEX_AGENT_URL and CORTEX_API_KEY must be set in environment variables"), [])
  else
    let req : HttpRequest :=
      { url := cfg.cortexAgentUrl.getD ""
        headers :=
          [("Authorization", "Bearer " ++ cfg.cortexApiKey.getD ""),
           ("Content-Type", "application/json"),
           ("Accept", "application/json")]
        payload := call_cortex_payload question context user_id channel_id
        timeout := cfg.timeoutSeconds }
    match transport req with
    | .failure => (.error .transportError, [req])
    | .response r =>
      if raise_for_status r.status then
        (.error (.upstreamError r.status), [req])
      else
        match r.jsonBody with
        | some j => (.ok j, [req])
        | none => (.error .malformedResponseError, [req])

/-- Normalized display text of `handle_modal_submission` (src/app.py line
193): `result.get("answer") or result.get("message") or "No answer
returned."`. -/
def modal_answer (result : Json) : Json :=
  pyOr (result.get "answer") (pyOr (result.get "message") (.str "No answer returned."))

/-- How the result is delivered to the user: either a blocks message with a
fallback text, or a plain text message. -/
inductive Rendering where
  | blocksMessage : Json → Json → Rendering
  | textMessage : Json → Rendering

/-- Rendering decision of `handle_modal_submission` (src/app.py lines
193-205): when `blocks` is truthy and a list, post blocks with the
normalized answer as fallback text; otherwise post
`answer if not rich else rich`. -/
def modal_render (result : Json) : Rendering :=
  let answer := modal_answer result
  let rich := result.get "rich_text"
  let blocks := result.get "blocks"
  if blocks.truthy && blocks.isList then
    .blocksMessage blocks answer
  else
    .textMessage (if !rich.truthy then answer else rich)

/-- Example configuration with both required values set, used to exercise
the relay on concrete inputs. -/
def exampleConfig : Config :=
  { cortexAgentUrl := some "https://agent.example/invoke"
    cortexApiKey := some "k"
    timeoutSeconds := 60 }

/-- Two distinct strings give distinct JSON string values. -/
theorem json_str_ne {a b : String} (h : a ≠ b) : Json.str a ≠ Json.str b :=
  fun e => h (Json.str.inj e)

/-- The metadata object of the outbound payload is exactly the two-field
object with `slack_user_id` and `slack_channel_id`, whatever the context
argument is. -/
theorem call_cortex_payload_metadata (q : String) (ctx uid cid : Option String) :
    (call_cortex_payload q ctx uid cid).get "metadata" =
      Json.obj [("slack_user_id", jsonOfOptStr uid), ("slack_channel_id", jsonOfOptStr cid)] := by
  unfold call_cortex_payload
  cases hctx : pyTruthyOptStr ctx <;> simp [hctx] <;> rfl

/-- Claim C1 counterexample: at question "q" with no context and no ids,
the outbound payload's `source` field is "slack", not "bot" as the claim
states (and the metadata keys are `slack_user_id`/`slack_channel_id`, not
`userId`/`channelId`). -/
theorem c1_counterexample :
    (call_cortex_payload "q" none none none).get "source" ≠ Json.str "bot" := by
  rw [show (call_cortex_payload "q" none none none).get "source" = Json.str "slack" from rfl]
  exact json_str_ne (by decide)

/-- Claim C1 (amended): for every call of the relay, the outbound payload
is exactly the object with `question`, `source = "slack"`, and a `metadata`
object with keys `slack_user_id` and `slack_channel_id`, plus an optional
`context` field. -/
theorem c1_payload_exact (q : String) (ctx uid cid : Option String) :
    call_cortex_payload q ctx uid cid = Json.obj
      ([("question", .str q), ("source", .str "slack"),
        ("metadata", .obj [("slack_user_id", jsonOfOptStr uid),
                           ("slack_channel_id", jsonOfOptStr cid)])] ++
        (if pyTruthyOptStr ctx then [("context", Json.str (ctx.getD ""))] else [])) := by
  unfold call_cortex_payload
  cases hctx : pyTruthyOptStr ctx <;> simp [hctx] <;> rfl

/-- Claim C2 counterexample: in the response {answer: "", message: "Y"},
the answer field is present (with value ""), yet the normalized display
text is "Y", not "" — the chain is truthiness-based, not presence-based. -/
theorem c2_counterexample :
    (Json.obj [("answer", .str ""), ("message", .str "Y")]).get "answer" = Json.str "" ∧
    modal_answer (Json.obj [("answer", .str ""), ("message", .str "Y")]) ≠ Json.str "" := by
  refine ⟨rfl, ?_⟩
  rw [show modal_answer (Json.obj [("answer", .str ""), ("message", .str "Y")]) =
      Json.str "Y" from rfl]
  exact json_str_ne (by decide)

/-- Claim C2 (amended): for every upstream 2xx JSON response, the
normalized display text is the `answer` field when it is present and
truthy (in particular a non-empty string), otherwise the `message` field
when present and truthy, otherwise the fixed string "No answer
returned.". -/
theorem c2_display_text_chain (r : Json) :
    modal_answer r =
      if (r.get "answer").truthy then r.get "answer"
      else if (r.get "message").truthy then r.get "message"
      else Json.str "No answer returned." := by
  unfold modal_answer pyOr
  rfl

/-- Claim C3: when the configured endpoint URL or the API key is unset,
the relay fails with the configuration error and issues zero HTTP
requests, for every transport. -/
theorem c3_config_error_no_network (cfg : Config) (transport : HttpRequest → HttpOutcome)
    (q : String) (ctx uid cid : Option String)
    (h : cfg.cortexAgentUrl = none ∨ cfg.cortexApiKey = none) :
    call_cortex_agent cfg transport q ctx uid cid =
      (.error (.configurationError
        "CORTEX_AGENT_URL and CORTEX_API_KEY must be set in environment variables"), []) := by
  unfold call_cortex_agent
  rcases h with h | h <;> simp [h, pyTruthyOptStr]

/-- Claim C3 witness: with the URL unset and a transport that would fail,
the relay returns the configuration error and an empty request list. -/
theorem c3_witness :
    call_cortex_agent ⟨none, some "k", 60⟩ (fun _ => .failure) "q" none none none =
      (.error (.configurationError
        "CORTEX_AGENT_URL and CORTEX_API_KEY must be set in environment variables"), []) :=
  c3_config_error_no_network ⟨none, some "k", 60⟩ (fun _ => .failure) "q" none none none
    (Or.inl rfl)

/-- Claim C4: whenever the response's `blocks` field is a non-empty list,
the rendering is the blocks message with the normalized display text as
the fallback label, whatever `rich_text` and the display text are. -/
theorem c4_blocks_preferred (r : Json) (xs : List Json)
    (hb : r.get "blocks" = Json.arr xs) (hne : xs ≠ []) :
    modal_render r = .blocksMessage (Json.arr xs) (modal_answer r) := by
  have hempty : xs.isEmpty = false := by
    cases xs with
    | nil => exact absurd rfl hne
    | cons a l => rfl
  unfold modal_render
  rw [hb]
  simp [Json.truthy, Json.isList, hempty]

/-- Claim C4 witness: a response with a one-element blocks list and a
rich_text field renders as a blocks message with the answer fallback. -/
theorem c4_witness :
    modal_render (Json.obj [("answer", Json.str "A"), ("rich_text", Json.str "R"),
        ("blocks", Json.arr [Json.str "b"])]) =
      .blocksMessage (Json.arr [Json.str "b"])
        (modal_answer (Json.obj [("answer", Json.str "A"), ("rich_text", Json.str "R"),
          ("blocks", Json.arr [Json.str "b"])])) :=
  c4_blocks_preferred
    (Json.obj [("answer", Json.str "A"), ("rich_text", Json.str "R"),
      ("blocks", Json.arr [Json.str "b"])])
    [Json.str "b"] rfl (List.cons_ne_nil _ _)

/-- Claim C5 counterexample: status 304 is not 2xx, yet with a valid JSON
body the relay returns the parsed body instead of an upstream error —
`raise_for_status` only raises on 4xx/5xx. -/
theorem c5_counterexample :
    (304 < 200 ∨ 300 ≤ 304) ∧
    (call_cortex_agent exampleConfig
      (fun _ => .response ⟨304, some (Json.obj [])⟩) "q" none none none).1 =
      Except.ok (Json.obj []) :=
  ⟨Or.inr (by decide), rfl⟩

/-- Claim C5 (amended): for every upstream response whose status is 4xx or
5xx, the relay fails with an upstream error carrying that status, and
exactly one POST is issued (no retry); a 3xx status does not raise. -/
theorem c5_upstream_error (cfg : Config) (resp : HttpResponse)
    (q : String) (ctx uid cid : Option String)
    (hu : pyTruthyOptStr cfg.cortexAgentUrl = true)
    (hk : pyTruthyOptStr cfg.cortexApiKey = true)
    (hs : 400 ≤ resp.status ∧ resp.status < 600) :
    (call_cortex_agent cfg (fun _ => .response resp) q ctx uid cid).1 =
      Except.error (.upstreamError resp.status) ∧
    (call_cortex_agent cfg (fun _ => .response resp) q ctx uid cid).2.length = 1 := by
  have hr : raise_for_status resp.status = true := by
    simp [raise_for_status]
    omega
  unfold call_cortex_agent
  simp [hu, hk, hr]

/-- Claim C5 witness: an HTTP 500 response produces the upstream error with
status 500 after a single POST. -/
theorem c5_witness :
    (call_cortex_agent exampleConfig
      (fun _ => .response ⟨500, some (Json.obj [])⟩) "q" none none none).1 =
      Except.error (.upstreamError 500) ∧
    (call_cortex_agent exampleConfig
      (fun _ => .response ⟨500, some (Json.obj [])⟩) "q" none none none).2.length = 1 :=
  c5_upstream_error exampleConfig ⟨500, some (Json.obj [])⟩ "q" none none none
    (by decide) (by decide) (by decide)

/-- Claim C6: when the context argument is absent the outbound payload has
no `context` key at all, and when it is present and non-empty the payload's
`context` field equals it. -/
theorem c6_context_field (q : String) (uid cid : Option String) :
    (call_cortex_payload q none uid cid).hasKey "context" = false ∧
    ∀ c : String, c ≠ "" →
      (call_cortex_payload q (some c) uid cid).get "context" = Json.str c := by
  refine ⟨rfl, ?_⟩
  intro c hc
  have hie : c.isEmpty = false := by
    cases h : c.isEmpty with
    | false => rfl
    | true => exact absurd ((String.isEmpty_iff c).mp h) hc
  have htruthy : pyTruthyOptStr (some c) = true := by
    simp [pyTruthyOptStr, hie]
  unfold call_cortex_payload
  simp only [htruthy, if_true]
  rfl

/-- Claim C6 witness: with no context the payload has no context key, and
with context "C" the payload's context field is "C". -/
theorem c6_witness :
    (call_cortex_payload "q" none none none).hasKey "context" = false ∧
    (call_cortex_payload "q" (some "C") none none).get "context" = Json.str "C" :=
  ⟨(c6_context_field "q" none none).1,
   (c6_context_field "q" none none).2 "C" (by decide)⟩

/-- Claim C7: a 2xx response whose body does not parse as JSON makes the
relay fail with the malformed-response error rather than return a value. -/
theorem c7_malformed_response (cfg : Config) (status : Nat)
    (q : String) (ctx uid cid : Option String)
    (hu : pyTruthyOptStr cfg.cortexAgentUrl = true)
    (hk : pyTruthyOptStr cfg.cortexApiKey = true)
    (hs : 200 ≤ status ∧ status < 300) :
    (call_cortex_agent cfg (fun _ => .response ⟨status, none⟩) q ctx uid cid).1 =
      Except.error .malformedResponseError := by
  have hr : raise_for_status status = false := by
    simp [raise_for_status]
    omega
  unfold call_cortex_agent
  simp [hu, hk, hr]

/-- Claim C7 witness: a 200 response with an unparseable body yields the
malformed-response error. -/
theorem c7_witness :
    (call_cortex_agent exampleConfig
      (fun _ => .response ⟨200, none⟩) "q" none none none).1 =
      Except.error .malformedResponseError :=
  c7_malformed_response exampleConfig 200 "q" none none none
    (by decide) (by decide) (by decide)

/-- Claim C8 counterexample: in the response {answer: "A", rich_text: ""},
the rich_text field is present (with value ""), yet the rendered text is
"A", not the rich text — the choice is truthiness-based, not
presence-based. -/
theorem c8_counterexample :
    (Json.obj [("answer", Json.str "A"), ("rich_text", Json.str "")]).get "rich_text" =
      Json.str "" ∧
    modal_render (Json.obj [("answer", Json.str "A"), ("rich_text", Json.str "")]) ≠
      Rendering.textMessage (Json.str "") := by
  refine ⟨rfl, ?_⟩
  rw [show modal_render (Json.obj [("answer", Json.str "A"), ("rich_text", Json.str "")]) =
      Rendering.textMessage (Json.str "A") from rfl]
  intro h
  exact json_str_ne (by decide) (Rendering.textMessage.inj h)

/-- Claim C8 (amended): when the response's blocks field is not truthy or
not a list (in particular absent or an empty list), the rendering is a
text message: the rich_text value when present and truthy (non-empty),
otherwise the normalized display text. -/
theorem c8_text_rendering (r : Json)
    (h : (r.get "blocks").truthy = false ∨ (r.get "blocks").isList = false) :
    modal_render r =
      Rendering.textMessage
        (if (r.get "rich_text").truthy then r.get "rich_text" else modal_answer r) := by
  have hb : ((r.get "blocks").truthy && (r.get "blocks").isList) = false := by
    rcases h with h | h <;> simp [h]
  unfold modal_render
  simp only [hb, if_false, Bool.false_eq_true]
  cases hr : (r.get "rich_text").truthy <;> simp [hr]

/-- Claim C8 witness: a blocks-free response with a non-empty rich_text
field renders the rich text. -/
theorem c8_witness :
    modal_render (Json.obj [("answer", Json.str "A"), ("rich_text", Json.str "R")]) =
      Rendering.textMessage
        (if ((Json.obj [("answer", Json.str "A"), ("rich_text", Json.str "R")]).get
            "rich_text").truthy
         then (Json.obj [("answer", Json.str "A"), ("rich_text", Json.str "R")]).get "rich_text"
         else modal_answer (Json.obj [("answer", Json.str "A"), ("rich_text", Json.str "R")])) :=
  c8_text_rendering (Json.obj [("answer", Json.str "A"), ("rich_text", Json.str "R")])
    (Or.inl rfl)

/-- Claim C9: the outbound payload's metadata object always has both
identity keys, and each is null when the corresponding argument is not
supplied. -/
theorem c9_metadata_always_both_keys (q : String) (ctx uid cid : Option String) :
    ((call_cortex_payload q ctx uid cid).get "metadata").hasKey "slack_user_id" = true ∧
    ((call_cortex_payload q ctx uid cid).get "metadata").hasKey "slack_channel_id" = true ∧
    (uid = none →
      ((call_cortex_payload q ctx uid cid).get "metadata").get "slack_user_id" = Json.null) ∧
    (cid = none →
      ((call_cortex_payload q ctx uid cid).get "metadata").get "slack_channel_id" = Json.null) := by
  rw [call_cortex_payload_metadata]
  refine ⟨rfl, rfl, ?_, ?_⟩ <;> rintro rfl <;> rfl

/-- Claim C9 witness: with no user id and no channel id supplied, the
metadata object has both keys and both values are null. -/
theorem c9_witness :
    ((call_cortex_payload "q" none none none).get "metadata").hasKey "slack_user_id" = true ∧
    ((call_cortex_payload "q" none none none).get "metadata").hasKey "slack_channel_id" = true ∧
    ((call_cortex_payload "q" none none none).get "metadata").get "slack_user_id" = Json.null ∧
    ((call_cortex_payload "q" none none none).get "metadata").get "slack_channel_id" = Json.null := by
  have h := c9_metadata_always_both_keys "q" none none none
  exact ⟨h.1, h.2.1, h.2.2.1 rfl, h.2.2.2 rfl⟩

/-- Claim C10: an empty-string context is falsy in Python, so the payload
is identical to the no-context payload and has no context key. -/
theorem c10_empty_context_omitted (q : String) (uid cid : Option String) :
    call_cortex_payload q (some "") uid cid = call_cortex_payload q none uid cid ∧
    (call_cortex_payload q (some "") uid cid).hasKey "context" = false :=
  ⟨rfl, rfl⟩
